import Mathlib

/-!
Shallow embedding of the GBA memory-bus subsystem of the Hades emulator
(src/source/gba/memory/memory.c) and proofs about it.

Conventions of the embedding:
* C `uint32_t` arithmetic is modelled on `Nat` with an explicit `% 4294967296`
  (`u32`) exactly where the C operation can wrap.
* Byte arrays (`uint8_t x[]`) are modelled as functions `Nat → Nat`; reading an
  element goes through `byteAt` (`% 256`), which encodes the `uint8_t` element
  type, and stores truncate the stored value to a byte.
* Masking with a constant of the form `2^k - 1` is written `% 2^k`; each such
  site carries a comment with the original C expression.
* Collaborator hooks that live outside this file's source (I/O register bank,
  backup-storage facade, GPIO, idle-cycle sink) are modelled from the spec, as
  noted in their doc comments.  Writes through opaque hooks are recorded in
  event logs so that state changes stay visible.
* Fallible paths (`panic` in `mem_openbus_read`) return `Option`.
-/

set_option autoImplicit false

/-- Wraps a natural number to 32 bits, the value of the same C `uint32_t`
expression. -/
def u32 (x : Nat) : Nat := x % 4294967296

/-- Value of the C expression `--x` on a `uint32_t`: decrement with wraparound. -/
def dec32 (x : Nat) : Nat := (x + 4294967295) % 4294967296

/-- Reads one element of a `uint8_t` array modelled as `Nat → Nat`. -/
def byteAt (f : Nat → Nat) (i : Nat) : Nat := f i % 256

/-- Functional update of a byte-array model at one index (a single C store). -/
def updf (f : Nat → Nat) (i v : Nat) : Nat → Nat :=
  fun j => if j = i then v else f j

/-- Little-endian 16-bit load `*(uint16_t *)&f[o]`. -/
def read16le (f : Nat → Nat) (o : Nat) : Nat :=
  byteAt f o ||| (byteAt f (o + 1) <<< 8)

/-- Little-endian 32-bit load `*(uint32_t *)&f[o]`. -/
def read32le (f : Nat → Nat) (o : Nat) : Nat :=
  byteAt f o ||| (byteAt f (o + 1) <<< 8) ||| (byteAt f (o + 2) <<< 16) |||
    (byteAt f (o + 3) <<< 24)

/-- Little-endian 16-bit store `*(uint16_t *)&f[o] = v`. -/
def write16le (f : Nat → Nat) (o v : Nat) : Nat → Nat :=
  updf (updf f o (v % 256)) (o + 1) (v / 256 % 256)

/-- Little-endian 32-bit store `*(uint32_t *)&f[o] = v`. -/
def write32le (f : Nat → Nat) (o v : Nat) : Nat → Nat :=
  updf (updf (updf (updf f o (v % 256)) (o + 1) (v / 256 % 256))
    (o + 2) (v / 65536 % 256)) (o + 3) (v / 16777216 % 256)

/-- Region codes, from the header (values fixed by the spec's region table:
the top byte of the address selects the region). -/
def BIOS_REGION : Nat := 0
def EWRAM_REGION : Nat := 2
def IWRAM_REGION : Nat := 3
def IO_REGION : Nat := 4
def PALRAM_REGION : Nat := 5
def VRAM_REGION : Nat := 6
def OAM_REGION : Nat := 7
def CART_REGION_START : Nat := 8
def CART_0_REGION_1 : Nat := 8
def CART_0_REGION_2 : Nat := 9
def CART_1_REGION_1 : Nat := 10
def CART_1_REGION_2 : Nat := 11
def CART_2_REGION_1 : Nat := 12
def CART_2_REGION_2 : Nat := 13
def CART_REGION_END : Nat := 13
def SRAM_REGION : Nat := 14
def SRAM_MIRROR_REGION : Nat := 15

/-- BIOS end address, from the spec (section 6): BIOS end = 0x3FFF. -/
def BIOS_END : Nat := 0x3FFF

/-- Modelled from the spec: VRAM mirror masks (header constants outside src).
Addresses with bit 16 set use the 64 KiB-aligned sub-mirror (mask 0x17FFF from
the spec's region table); otherwise the full 128 KiB mirror. -/
def VRAM_MASK_1 : Nat := 0x17FFF
def VRAM_MASK_2 : Nat := 0x1FFFF

/-- Modelled from the spec: cart mirror mask (header constant outside src);
the 32 MiB cart window.  No claim depends on its value. -/
def CART_MASK : Nat := 0x1FFFFFF

/-- Modelled from the spec: bounds of the GPIO register window (header
constants outside src); the GBA GPIO registers at 0x080000C4..0x080000C8. -/
def GPIO_REG_START : Nat := 0x080000C4
def GPIO_REG_END : Nat := 0x080000C8

/-- The `addr & ((addr & 0x10000) ? VRAM_MASK_1 : VRAM_MASK_2)` index
computation used by every VRAM access. -/
def vram_index (addr : Nat) : Nat :=
  if addr &&& 0x10000 ≠ 0 then addr &&& VRAM_MASK_1 else addr &&& VRAM_MASK_2

/-- Backup chip kinds, from the header (only the EEPROM distinction is used by
memory.c). -/
inductive BackupType where
  | none
  | eeprom_4k
  | eeprom_64k
  | sram_chip
  | flash64
  | flash128
deriving DecidableEq

/-- The REG_WAITCNT fields read by `mem_update_waitstates`.  The 2-bit fields
are `Fin 4` and the 1-bit fields `Bool`, encoding the C bitfield widths. -/
structure Waitcnt where
  sram : Fin 4
  ws0_nonseq : Fin 4
  ws0_seq : Bool
  ws1_nonseq : Fin 4
  ws1_seq : Bool
  ws2_nonseq : Fin 4
  ws2_seq : Bool

/-- The `gamepak_nonseq_waitstates` table `{ 4, 3, 2, 8 }`. -/
def gamepak_nonseq_waitstates (i : Fin 4) : Nat :=
  [4, 3, 2, 8].getD i.val 0

/-- The pair of mutable timing tables `access_time16` / `access_time32`,
indexed by (sequential?, region page).  `true` is SEQUENTIAL. -/
structure AccessTimes where
  t16 : Bool → Nat → Nat
  t32 : Bool → Nat → Nat

/-- Initial value of `access_time16` (both rows identical). -/
def access_time16_init : Bool → Nat → Nat :=
  fun _ page => [1, 1, 3, 1, 1, 1, 1, 1, 0, 0, 0, 0, 0, 0, 0, 1].getD page 0

/-- Initial value of `access_time32` (both rows identical). -/
def access_time32_init : Bool → Nat → Nat :=
  fun _ page => [1, 1, 6, 1, 1, 2, 2, 1, 0, 0, 0, 0, 0, 0, 0, 1].getD page 0

/-- Both timing tables in their initial state. -/
def access_times_init : AccessTimes :=
  { t16 := access_time16_init, t32 := access_time32_init }

/-- One assignment `table[s][i] = v` to a timing-table row function. -/
def upd2 (f : Bool → Nat → Nat) (s : Bool) (i v : Nat) : Bool → Nat → Nat :=
  fun s2 i2 => if i2 = i ∧ s2 = s then v else f s2 i2

/-- Embedding of `mem_update_waitstates`: recompute the cart and SRAM rows of
both timing tables from REG_WAITCNT. -/
def mem_update_waitstates (wc : Waitcnt) (t : AccessTimes) : AccessTimes :=
  let n := gamepak_nonseq_waitstates
  -- 16 bit, non seq
  let a := upd2 t.t16 false CART_0_REGION_1 (1 + n wc.ws0_nonseq)
  let a := upd2 a false CART_0_REGION_2 (1 + n wc.ws0_nonseq)
  let a := upd2 a false CART_1_REGION_1 (1 + n wc.ws1_nonseq)
  let a := upd2 a false CART_1_REGION_2 (1 + n wc.ws1_nonseq)
  let a := upd2 a false CART_2_REGION_1 (1 + n wc.ws2_nonseq)
  let a := upd2 a false CART_2_REGION_2 (1 + n wc.ws2_nonseq)
  let a := upd2 a false SRAM_REGION (1 + n wc.sram)
  -- 16 bit, seq
  let a := upd2 a true CART_0_REGION_1 (1 + if wc.ws0_seq then 1 else 2)
  let a := upd2 a true CART_0_REGION_2 (1 + if wc.ws0_seq then 1 else 2)
  let a := upd2 a true CART_1_REGION_1 (1 + if wc.ws1_seq then 1 else 4)
  let a := upd2 a true CART_1_REGION_2 (1 + if wc.ws1_seq then 1 else 4)
  let a := upd2 a true CART_2_REGION_1 (1 + if wc.ws2_seq then 1 else 8)
  let a := upd2 a true CART_2_REGION_2 (1 + if wc.ws2_seq then 1 else 8)
  let a := upd2 a true SRAM_REGION (1 + n wc.sram)
  -- Update for 32-bit too: for x in CART_0_REGION_1..SRAM_REGION.
  let b := fun (s : Bool) (i : Nat) =>
    if CART_0_REGION_1 ≤ i ∧ i ≤ SRAM_REGION then
      if s then 2 * a true i else a false i + a true i
    else t.t32 s i
  { t16 := a, t32 := b }

/-- The prefetch buffer state (`struct prefetch_buffer`).  Modelled from the
spec's data model (section 3); the header with the struct is outside src.  All
counters are 32-bit unsigned, like every other bus scalar. -/
structure PrefetchBuffer where
  head : Nat
  tail : Nat
  countdown : Nat
  insn_len : Nat
  reload : Nat
  capacity : Nat
  size : Nat
  enabled : Bool

/-- The bus state visible to memory.c: CPU observability surface, the memory
arrays, the collaborator facades (modelled from the spec, section 6), the
mutable timing tables, the prefetch buffer and the idle-cycle sink counter. -/
structure Gba where
  -- CPU observability surface
  pc : Nat
  thumb : Bool
  prefetch0 : Nat
  prefetch1 : Nat
  is_dma_running : Bool
  -- memory blobs and the BIOS latch
  bios : Nat → Nat
  bios_bus : Nat
  ewram : Nat → Nat
  iwram : Nat → Nat
  palram : Nat → Nat
  vram : Nat → Nat
  oam : Nat → Nat
  rom : Nat → Nat
  rom_size : Nat
  -- backup-storage facade (modelled from the spec: byte read/write plus the
  -- EEPROM detection window and the byte an EEPROM read currently yields)
  backup_type : BackupType
  eeprom_mask : Nat
  eeprom_range : Nat
  eeprom_byte : Nat
  eeprom_writes : List Nat
  sram : Nat → Nat
  -- I/O register bank (modelled from the spec: opaque byte hooks; writes are
  -- logged)
  io_read_hook : Nat → Nat
  io_writes : List (Nat × Nat)
  -- GPIO facade (modelled from the spec)
  gpio_readable : Bool
  gpio_read_hook : Nat → Nat
  gpio_writes : List (Nat × Nat)
  -- display control
  bg_mode : Nat
  -- bus telemetry
  was_last_access_from_dma : Bool
  dma_bus : Nat
  gamepak_bus_in_use : Bool
  -- prefetch buffer, timing tables, idle-cycle sink accumulator
  pbuffer : PrefetchBuffer
  times : AccessTimes
  cycles : Nat

/-- Modelled from the spec: the idle-cycle sink `advance(n)` (core_idle_for
in core.c, outside src) monotonically increments the cycle counter. -/
def core_idle_for (gba : Gba) (n : Nat) : Gba :=
  { gba with cycles := gba.cycles + n }

/-- Modelled from the spec: a one-cycle advance of the idle-cycle sink
(core_idle in core.c, outside src). -/
def core_idle (gba : Gba) : Gba :=
  { gba with cycles := gba.cycles + 1 }

/-- Modelled from the spec: `mem_io_read8`, the opaque byte-wise I/O register
read hook. -/
def mem_io_read8 (gba : Gba) (addr : Nat) : Nat := byteAt gba.io_read_hook addr

/-- Modelled from the spec: `mem_eeprom_read8`, the opaque EEPROM facade byte
read (returns a `uint8_t`). -/
def mem_eeprom_read8 (gba : Gba) : Nat := gba.eeprom_byte % 256

/-- Modelled from the spec: `gpio_read_u8`, the opaque GPIO facade byte
read. -/
def gpio_read_u8 (gba : Gba) (addr : Nat) : Nat := byteAt gba.gpio_read_hook addr

/-- Modelled from the spec: `mem_backup_storage_read8`, the backup-storage
facade byte read. -/
def mem_backup_storage_read8 (gba : Gba) (addr : Nat) : Nat :=
  byteAt gba.sram addr

/-- Modelled from the spec: `mem_backup_storage_write8`, the backup-storage
facade byte write (`val` is a `uint8_t` parameter). -/
def mem_backup_storage_write8 (gba : Gba) (addr val : Nat) : Gba :=
  { gba with sram := updf gba.sram addr (val % 256) }

/-- Modelled from the spec: `mem_eeprom_write8`; the written bit is logged. -/
def mem_eeprom_write8 (gba : Gba) (val : Nat) : Gba :=
  { gba with eeprom_writes := val % 256 :: gba.eeprom_writes }

/-- Modelled from the spec: `gpio_write_u8`; the write is logged. -/
def gpio_write_u8 (gba : Gba) (addr val : Nat) : Gba :=
  { gba with gpio_writes := (addr, val % 256) :: gba.gpio_writes }

/-- Modelled from the spec: `mem_io_write8`; the write is logged. -/
def mem_io_write8 (gba : Gba) (addr val : Nat) : Gba :=
  { gba with io_writes := (addr, val % 256) :: gba.io_writes }

/-- Helper for `mem_openbus_read`: the Thumb-mode `switch (pc >> 24)` that
computes `val`; `Option.none` is the `panic` arm. -/
def openbus_thumb_val (gba : Gba) : Option Nat :=
  let pc := gba.pc
  let pc24 := pc >>> 24
  if pc24 = EWRAM_REGION ∨ pc24 = PALRAM_REGION ∨ pc24 = VRAM_REGION ∨
      (CART_0_REGION_1 ≤ pc24 ∧ pc24 ≤ CART_2_REGION_2) then
    -- val = prefetch[1]; val |= prefetch[1] << 16;
    some (gba.prefetch1 ||| u32 (gba.prefetch1 <<< 16))
  else if pc24 = BIOS_REGION ∨ pc24 = OAM_REGION then
    if pc % 4 < 2 then -- (pc & 0x2) == 0, 4-byte aligned PC
      some (gba.prefetch1 ||| u32 (gba.prefetch1 <<< 16))
    else
      some (gba.prefetch0 ||| u32 (gba.prefetch1 <<< 16))
  else if pc24 = IWRAM_REGION then
    if pc % 4 < 2 then -- (pc & 0x2) == 0, 4-byte aligned PC
      some (gba.prefetch1 ||| u32 (gba.prefetch0 <<< 16))
    else
      some (gba.prefetch0 ||| u32 (gba.prefetch1 <<< 16))
  else
    none -- panic: reading the open bus from an impossible page

/-- Embedding of `mem_openbus_read`; `Option.none` stands for the fatal
`panic` branch. -/
def mem_openbus_read (gba : Gba) (addr : Nat) : Option Nat :=
  let shift := addr % 4 -- addr & 0x3
  if gba.was_last_access_from_dma then
    some (gba.dma_bus >>> (8 * shift))
  else if gba.thumb then
    (openbus_thumb_val gba).map (fun val => val >>> (8 * shift))
  else
    some (gba.prefetch1 >>> (8 * shift))

/-- Embedding of `mem_prefetch_buffer_access`. -/
def mem_prefetch_buffer_access (gba : Gba) (addr intended_cycles : Nat) : Gba :=
  let pb := gba.pbuffer
  if pb.tail = addr then
    if pb.size = 0 then -- Finish to fetch if it isn't done yet
      let gba1 := core_idle_for { gba with gamepak_bus_in_use := false }
        pb.countdown
      { gba1 with
        pbuffer := { pb with tail := u32 (pb.tail + pb.insn_len),
                             size := dec32 pb.size } }
    else
      let gba1 :=
        { gba with
          pbuffer := { pb with tail := u32 (pb.tail + pb.insn_len),
                               size := dec32 pb.size } }
      core_idle { gba1 with gamepak_bus_in_use := false }
  else
    -- Do it first or it'll screw our pbuffer settings
    let gba1 := core_idle_for gba intended_cycles
    let pb1 :=
      if gba.thumb then
        { pb with insn_len := 2, capacity := 8,
                  reload := gba.times.t16 true ((addr >>> 24) % 16) }
      else
        { pb with insn_len := 4, capacity := 4,
                  reload := gba.times.t32 true ((addr >>> 24) % 16) }
    let pb2 := { pb1 with countdown := pb1.reload,
                          tail := u32 (addr + pb1.insn_len) }
    { gba1 with pbuffer := { pb2 with head := pb2.tail, size := 0 } }

/-- The while loop of `mem_prefetch_buffer_step`.  The fuel argument is
`capacity - size`; since each iteration increments `size`, the loop condition
fails no later than the fuel runs out, so this equals the C loop. -/
def pb_fill_loop : Nat → PrefetchBuffer → Nat → PrefetchBuffer × Nat
  | 0, pb, cycles => (pb, cycles)
  | fuel + 1, pb, cycles =>
    if pb.countdown ≤ cycles ∧ pb.size < pb.capacity then
      pb_fill_loop fuel
        { pb with head := u32 (pb.head + pb.insn_len),
                  countdown := pb.reload, size := u32 (pb.size + 1) }
        (cycles - pb.countdown)
    else (pb, cycles)

/-- Embedding of `mem_prefetch_buffer_step`.  When the final branch runs, the
loop stopped with `cycles < countdown` (the fuel cannot run out while
`size < capacity`), so plain `Nat` subtraction equals the C `uint32_t`
subtraction there. -/
def mem_prefetch_buffer_step (gba : Gba) (cycles : Nat) : Gba :=
  let pb := gba.pbuffer
  let r := pb_fill_loop (pb.capacity - pb.size) pb cycles
  let pb1 := r.1
  let pb2 :=
    if pb1.size < pb1.capacity then
      { pb1 with countdown := pb1.countdown - r.2 }
    else pb1
  { gba with pbuffer := pb2 }

/-- The first line of `mem_access`: `align_on(addr, size)` (helpers.h, outside
src; the spec: round the address down to the natural boundary). -/
def align_on (addr size : Nat) : Nat := addr / size * size

/-- Embedding of `mem_access`: cycle accrual for one timed bus access.
`access_type` is the sequential flag (`true` = SEQUENTIAL). -/
def mem_access (gba : Gba) (addr size : Nat) (access_type : Bool) : Gba :=
  let addr := align_on addr size
  let page := (addr >>> 24) % 16 -- (addr >> 24) & 0xF
  let access_type :=
    if CART_REGION_START ≤ page ∧ page ≤ CART_REGION_END ∧
        addr % 0x20000 = 0 then -- !(addr & 0x1FFFF)
      false
    else access_type
  let cycles :=
    if size ≤ 2 then gba.times.t16 access_type page
    else gba.times.t32 access_type page
  let gba :=
    { gba with
      gamepak_bus_in_use :=
        decide (CART_REGION_START ≤ page ∧ page ≤ CART_REGION_END) }
  if gba.gamepak_bus_in_use && gba.pbuffer.enabled && !gba.is_dma_running then
    mem_prefetch_buffer_access gba addr cycles
  else
    core_idle_for gba cycles

/-- Body of `mem_read8_internal`; `Option.none` is the unreachable `panic`
inside a fallthrough to `mem_openbus_read`. -/
def mem_read8_internal (gba : Gba) (addr : Nat) : Option (Nat × Gba) :=
  let region := addr >>> 24
  if region = BIOS_REGION then
    if addr ≤ BIOS_END then
      let shift := 8 * (addr % 4) -- 8 * (addr & 0b11)
      let gba :=
        if gba.pc ≤ BIOS_END then
          { gba with bios_bus := read32le gba.bios (addr / 4 * 4) } -- addr & ~3
        else gba
      some ((gba.bios_bus >>> shift) % 256, gba)
    else
      (mem_openbus_read gba addr).map (fun v => (v % 256, gba))
  else if region = EWRAM_REGION then
    some (byteAt gba.ewram (addr % 0x40000), gba) -- addr & EWRAM_MASK
  else if region = IWRAM_REGION then
    some (byteAt gba.iwram (addr % 0x8000), gba) -- addr & IWRAM_MASK
  else if region = IO_REGION then
    some (mem_io_read8 gba addr, gba)
  else if region = PALRAM_REGION then
    some (byteAt gba.palram (addr % 0x400), gba) -- addr & PALRAM_MASK
  else if region = VRAM_REGION then
    some (byteAt gba.vram (vram_index addr), gba)
  else if region = OAM_REGION then
    some (byteAt gba.oam (addr % 0x400), gba) -- addr & OAM_MASK
  else if CART_REGION_START ≤ region ∧ region ≤ CART_REGION_END then
    if (gba.backup_type = BackupType.eeprom_4k ∨
        gba.backup_type = BackupType.eeprom_64k) ∧
        addr &&& gba.eeprom_mask = gba.eeprom_range then
      some (mem_eeprom_read8 gba, gba)
    else if GPIO_REG_START ≤ addr ∧ addr ≤ GPIO_REG_END ∧
        gba.gpio_readable = true then
      some (gpio_read_u8 gba addr, gba)
    else if addr % 0x1000000 ≥ gba.rom_size then -- (addr & 0x00FFFFFF)
      some ((addr >>> (1 + 8 * (addr % 2))) % 256, gba) -- & 0xFF
    else
      some (byteAt gba.rom (addr &&& CART_MASK), gba)
  else if region = SRAM_REGION ∨ region = SRAM_MIRROR_REGION then
    some (mem_backup_storage_read8 gba addr, gba)
  else
    (mem_openbus_read gba addr).map (fun v => (v % 256, gba))

/-- Dispatch body of `mem_read16_internal`, taking the already-aligned
address. -/
def mem_read16_dispatch (gba : Gba) (addr : Nat) : Option (Nat × Gba) :=
  let region := addr >>> 24
  if region = BIOS_REGION then
    if addr ≤ BIOS_END then
      let shift := 8 * (addr % 4) -- 8 * (addr & 0b11)
      let gba :=
        if gba.pc ≤ BIOS_END then
          { gba with bios_bus := read32le gba.bios (addr / 4 * 4) } -- addr & ~3
        else gba
      some ((gba.bios_bus >>> shift) % 65536, gba)
    else
      (mem_openbus_read gba addr).map (fun v => (v % 65536, gba))
  else if region = EWRAM_REGION then
    some (read16le gba.ewram (addr % 0x40000), gba) -- addr & EWRAM_MASK
  else if region = IWRAM_REGION then
    some (read16le gba.iwram (addr % 0x8000), gba) -- addr & IWRAM_MASK
  else if region = IO_REGION then
    some (mem_io_read8 gba (addr + 0) ||| (mem_io_read8 gba (addr + 1) <<< 8),
      gba)
  else if region = PALRAM_REGION then
    some (read16le gba.palram (addr % 0x400), gba) -- addr & PALRAM_MASK
  else if region = VRAM_REGION then
    some (read16le gba.vram (vram_index addr), gba)
  else if region = OAM_REGION then
    some (read16le gba.oam (addr % 0x400), gba) -- addr & OAM_MASK
  else if CART_REGION_START ≤ region ∧ region ≤ CART_REGION_END then
    if (gba.backup_type = BackupType.eeprom_4k ∨
        gba.backup_type = BackupType.eeprom_64k) ∧
        addr &&& gba.eeprom_mask = gba.eeprom_range then
      some (mem_eeprom_read8 gba, gba)
    else if GPIO_REG_START ≤ addr ∧ addr ≤ GPIO_REG_END ∧
        gba.gpio_readable = true then
      some (gpio_read_u8 gba addr, gba)
    else if addr % 0x1000000 ≥ gba.rom_size then -- (addr & 0x00FFFFFF)
      some ((addr >>> 1) % 65536, gba) -- (addr >> 1) & 0xFFFF
    else
      some (read16le gba.rom (addr &&& CART_MASK), gba)
  else if region = SRAM_REGION ∨ region = SRAM_MIRROR_REGION then
    let byte := mem_backup_storage_read8 gba addr
    some (byte ||| (byte <<< 8), gba) -- SRAM repeats the byte
  else
    (mem_openbus_read gba addr).map (fun v => (v % 65536, gba))

/-- Embedding of `mem_read16_internal`: align to 16-bit, then dispatch. -/
def mem_read16_internal (gba : Gba) (addr : Nat) : Option (Nat × Gba) :=
  mem_read16_dispatch gba (addr / 2 * 2) -- addr &= ~1

/-- Dispatch body of `mem_read32_internal`, taking the already-aligned
address. -/
def mem_read32_dispatch (gba : Gba) (addr : Nat) : Option (Nat × Gba) :=
  let region := addr >>> 24
  if region = BIOS_REGION then
    if addr ≤ BIOS_END then
      let shift := 8 * (addr % 4) -- 8 * (addr & 0b11)
      let gba :=
        if gba.pc ≤ BIOS_END then
          { gba with bios_bus := read32le gba.bios (addr / 4 * 4) } -- addr & ~3
        else gba
      some (gba.bios_bus >>> shift, gba)
    else
      (mem_openbus_read gba addr).map (fun v => (v, gba))
  else if region = EWRAM_REGION then
    some (read32le gba.ewram (addr % 0x40000), gba) -- addr & EWRAM_MASK
  else if region = IWRAM_REGION then
    some (read32le gba.iwram (addr % 0x8000), gba) -- addr & IWRAM_MASK
  else if region = IO_REGION then
    some (mem_io_read8 gba (addr + 0) ||| (mem_io_read8 gba (addr + 1) <<< 8)
      ||| (mem_io_read8 gba (addr + 2) <<< 16)
      ||| (mem_io_read8 gba (addr + 3) <<< 24), gba)
  else if region = PALRAM_REGION then
    some (read32le gba.palram (addr % 0x400), gba) -- addr & PALRAM_MASK
  else if region = VRAM_REGION then
    some (read32le gba.vram (vram_index addr), gba)
  else if region = OAM_REGION then
    some (read32le gba.oam (addr % 0x400), gba) -- addr & OAM_MASK
  else if CART_REGION_START ≤ region ∧ region ≤ CART_REGION_END then
    if (gba.backup_type = BackupType.eeprom_4k ∨
        gba.backup_type = BackupType.eeprom_64k) ∧
        addr &&& gba.eeprom_mask = gba.eeprom_range then
      some (mem_eeprom_read8 gba, gba)
    else if GPIO_REG_START ≤ addr ∧ addr ≤ GPIO_REG_END ∧
        gba.gpio_readable = true then
      some (gpio_read_u8 gba addr, gba)
    else if addr % 0x1000000 ≥ gba.rom_size then -- (addr & 0x00FFFFFF)
      -- ((addr >> 1) & 0xFFFF) | ((((addr + 2) >> 1) & 0xFFFF) << 16)
      some ((addr >>> 1) % 65536 ||| ((((addr + 2) >>> 1) % 65536) <<< 16), gba)
    else
      some (read32le gba.rom (addr &&& CART_MASK), gba)
  else if region = SRAM_REGION ∨ region = SRAM_MIRROR_REGION then
    let byte := mem_backup_storage_read8 gba addr
    some (byte * 0x01010101, gba) -- SRAM repeats the byte
  else
    (mem_openbus_read gba addr).map (fun v => (v, gba))

/-- Embedding of `mem_read32_internal`: align to 32-bit, then dispatch. -/
def mem_read32_internal (gba : Gba) (addr : Nat) : Option (Nat × Gba) :=
  mem_read32_dispatch gba (addr / 4 * 4) -- addr &= ~3

/-- Embedding of `mem_write8_internal`. -/
def mem_write8_internal (gba : Gba) (addr val : Nat) : Gba :=
  let region := addr >>> 24
  if region = BIOS_REGION then
    gba -- Ignore writes to BIOS
  else if region = EWRAM_REGION then
    { gba with ewram := updf gba.ewram (addr % 0x40000) (val % 256) }
  else if region = IWRAM_REGION then
    { gba with iwram := updf gba.iwram (addr % 0x8000) (val % 256) }
  else if region = IO_REGION then
    mem_io_write8 gba addr val
  else if region = PALRAM_REGION then
    -- 8-bit writes to PALRAM write to both upper and lower bytes
    let a := addr / 2 * 2 -- addr &= ~1
    { gba with
      palram := updf (updf gba.palram (a % 0x400) (val % 256))
        ((a + 1) % 0x400) (val % 256) }
  else if region = VRAM_REGION then
    let vram_addr := addr &&& 0x1FFFF
    -- Ignore 8-bit writes to OBJ VRAM
    if (gba.bg_mode ≤ 2 ∧ vram_addr < 0x10000) ∨
        (3 ≤ gba.bg_mode ∧ vram_addr < 0x14000) then
      let a := addr / 2 * 2 -- addr &= ~1
      { gba with
        vram := updf (updf gba.vram (vram_index a) (val % 256))
          (vram_index (a + 1)) (val % 256) }
    else gba
  else if region = OAM_REGION then
    gba -- Ignore 8-bit writes to OAM
  else if CART_REGION_START ≤ region ∧ region ≤ CART_REGION_END then
    if (gba.backup_type = BackupType.eeprom_4k ∨
        gba.backup_type = BackupType.eeprom_64k) ∧
        addr &&& gba.eeprom_mask = gba.eeprom_range then
      mem_eeprom_write8 gba (val % 2) -- val & 1
    else if GPIO_REG_START ≤ addr ∧ addr ≤ GPIO_REG_END then
      gpio_write_u8 gba addr val
    else gba -- Otherwise ignore writes to ROM
  else if region = SRAM_REGION ∨ region = SRAM_MIRROR_REGION then
    mem_backup_storage_write8 gba addr val
  else gba -- Invalid write: logged and dropped

/-- Dispatch body of `mem_write16_internal`, taking the already-aligned
address. -/
def mem_write16_dispatch (gba : Gba) (addr val : Nat) : Gba :=
  let region := addr >>> 24
  if region = BIOS_REGION then
    gba -- Ignore writes to BIOS
  else if region = EWRAM_REGION then
    { gba with ewram := write16le gba.ewram (addr % 0x40000) val }
  else if region = IWRAM_REGION then
    { gba with iwram := write16le gba.iwram (addr % 0x8000) val }
  else if region = IO_REGION then
    let gba := mem_io_write8 gba (addr + 0) (val % 256) -- (uint8_t)(val >> 0)
    mem_io_write8 gba (addr + 1) (val / 256 % 256) -- (uint8_t)(val >> 8)
  else if region = PALRAM_REGION then
    { gba with palram := write16le gba.palram (addr % 0x400) val }
  else if region = VRAM_REGION then
    { gba with vram := write16le gba.vram (vram_index addr) val }
  else if region = OAM_REGION then
    { gba with oam := write16le gba.oam (addr % 0x400) val }
  else if CART_REGION_START ≤ region ∧ region ≤ CART_REGION_END then
    if (gba.backup_type = BackupType.eeprom_4k ∨
        gba.backup_type = BackupType.eeprom_64k) ∧
        addr &&& gba.eeprom_mask = gba.eeprom_range then
      mem_eeprom_write8 gba (val % 2) -- val & 1
    else if GPIO_REG_START ≤ addr ∧ addr ≤ GPIO_REG_END then
      gpio_write_u8 gba addr val
    else gba -- Otherwise ignore writes to ROM
  else if region = SRAM_REGION ∨ region = SRAM_MIRROR_REGION then
    -- 16-bit writes to SRAM are rotated if unaligned
    mem_backup_storage_write8 gba addr (val >>> (8 * (addr % 2)))
  else gba -- Invalid write: logged and dropped

/-- Embedding of `mem_write16_internal`: align to 16-bit, then dispatch. -/
def mem_write16_internal (gba : Gba) (addr val : Nat) : Gba :=
  mem_write16_dispatch gba (addr / 2 * 2) val -- addr &= ~1

/-- Dispatch body of `mem_write32_internal`, taking the already-aligned
address. -/
def mem_write32_dispatch (gba : Gba) (addr val : Nat) : Gba :=
  let region := addr >>> 24
  if region = BIOS_REGION then
    gba -- Ignore writes to BIOS
  else if region = EWRAM_REGION then
    { gba with ewram := write32le gba.ewram (addr % 0x40000) val }
  else if region = IWRAM_REGION then
    { gba with iwram := write32le gba.iwram (addr % 0x8000) val }
  else if region = IO_REGION then
    let gba := mem_io_write8 gba (addr + 0) (val % 256)
    let gba := mem_io_write8 gba (addr + 1) (val / 256 % 256)
    let gba := mem_io_write8 gba (addr + 2) (val / 65536 % 256)
    mem_io_write8 gba (addr + 3) (val / 16777216 % 256)
  else if region = PALRAM_REGION then
    { gba with palram := write32le gba.palram (addr % 0x400) val }
  else if region = VRAM_REGION then
    { gba with vram := write32le gba.vram (vram_index addr) val }
  else if region = OAM_REGION then
    { gba with oam := write32le gba.oam (addr % 0x400) val }
  else if CART_REGION_START ≤ region ∧ region ≤ CART_REGION_END then
    if (gba.backup_type = BackupType.eeprom_4k ∨
        gba.backup_type = BackupType.eeprom_64k) ∧
        addr &&& gba.eeprom_mask = gba.eeprom_range then
      mem_eeprom_write8 gba (val % 2) -- val & 1
    else if GPIO_REG_START ≤ addr ∧ addr ≤ GPIO_REG_END then
      gpio_write_u8 gba addr val
    else gba -- Otherwise ignore writes to ROM
  else if region = SRAM_REGION ∨ region = SRAM_MIRROR_REGION then
    -- 32-bit writes to SRAM are rotated if unaligned
    mem_backup_storage_write8 gba addr (val >>> (8 * (addr % 4)))
  else gba -- Invalid write: logged and dropped

/-- Embedding of `mem_write32_internal`: align to 32-bit, then dispatch. -/
def mem_write32_internal (gba : Gba) (addr val : Nat) : Gba :=
  mem_write32_dispatch gba (addr / 4 * 4) val -- addr &= ~3

/-- Embedding of the public `mem_read8`: timed access, then the internal
read. -/
def mem_read8 (gba : Gba) (addr : Nat) (access_type : Bool) :
    Option (Nat × Gba) :=
  mem_read8_internal (mem_access gba addr 1 access_type) addr

/-- Embedding of the public `mem_read16`. -/
def mem_read16 (gba : Gba) (addr : Nat) (access_type : Bool) :
    Option (Nat × Gba) :=
  mem_read16_internal (mem_access gba addr 2 access_type) addr

/-- Embedding of the public `mem_read32`. -/
def mem_read32 (gba : Gba) (addr : Nat) (access_type : Bool) :
    Option (Nat × Gba) :=
  mem_read32_internal (mem_access gba addr 4 access_type) addr

/-- Embedding of the public `mem_write8`. -/
def mem_write8 (gba : Gba) (addr val : Nat) (access_type : Bool) : Gba :=
  mem_write8_internal (mem_access gba addr 1 access_type) addr val

/-- Embedding of the public `mem_write16`. -/
def mem_write16 (gba : Gba) (addr val : Nat) (access_type : Bool) : Gba :=
  mem_write16_internal (mem_access gba addr 2 access_type) addr val

/-- Embedding of the public `mem_write32`. -/
def mem_write32 (gba : Gba) (addr val : Nat) (access_type : Bool) : Gba :=
  mem_write32_internal (mem_access gba addr 4 access_type) addr val

/-- One call in a prefetch-buffer interaction sequence: either
`mem_prefetch_buffer_access addr intended_cycles` or
`mem_prefetch_buffer_step cycles`. -/
inductive PbOp where
  | acc (addr intended_cycles : Nat)
  | step (cycles : Nat)

/-- Runs a sequence of prefetch-buffer calls. -/
def pb_run (gba : Gba) : List PbOp → Gba
  | [] => gba
  | PbOp.acc a i :: rest => pb_run (mem_prefetch_buffer_access gba a i) rest
  | PbOp.step c :: rest => pb_run (mem_prefetch_buffer_step gba c) rest

/-- Address check matching how `mem_access` reaches the prefetch buffer: the
page `(addr >> 24) & 0xF` is a cart page, and the address fits in 32 bits. -/
def cart_addr_b (a : Nat) : Bool :=
  decide (8 ≤ (a >>> 24) % 16) && decide ((a >>> 24) % 16 ≤ 13) &&
    decide (a < 4294967296)

/-- Every access in the sequence carries a cart address (as `mem_access`
guarantees for the calls it makes). -/
def ops_cart : List PbOp → Bool
  | [] => true
  | PbOp.acc a _ :: rest => cart_addr_b a && ops_cart rest
  | PbOp.step _ :: rest => ops_cart rest

/-- Holds when no access in the sequence hits (`tail == addr`) while the
front slot is still in flight (`size == 0`). -/
def no_inflight_hit (gba : Gba) : List PbOp → Bool
  | [] => true
  | PbOp.acc a i :: rest =>
    (decide (gba.pbuffer.tail ≠ a) || decide (gba.pbuffer.size ≠ 0)) &&
      no_inflight_hit (mem_prefetch_buffer_access gba a i) rest
  | PbOp.step c :: rest => no_inflight_hit (mem_prefetch_buffer_step gba c) rest

/-- The timing tables after an arbitrary history of REG_WAITCNT writes,
starting from the initial tables. -/
def waitcnt_history (wcs : List Waitcnt) : AccessTimes :=
  wcs.foldl (fun t wc => mem_update_waitstates wc t) access_times_init

/-- A REG_WAITCNT value with every field zero. -/
def wc_zero : Waitcnt :=
  { sram := 0, ws0_nonseq := 0, ws0_seq := false, ws1_nonseq := 0,
    ws1_seq := false, ws2_nonseq := 0, ws2_seq := false }

/-- A REG_WAITCNT value whose WS0 sequential bit is set, so that the
sequential 16-bit cart timing after a recompute is 1 + 1 = 2 cycles. -/
def wc_ws0seq : Waitcnt :=
  { sram := 0, ws0_nonseq := 0, ws0_seq := true, ws1_nonseq := 0,
    ws1_seq := false, ws2_nonseq := 0, ws2_seq := false }

/-- A concrete bus state used by witnesses and counterexamples: everything
zeroed, backup type SRAM, prefetch enabled, initial timing tables. -/
def g0 : Gba :=
  { pc := 0, thumb := false, prefetch0 := 0, prefetch1 := 0,
    is_dma_running := false,
    bios := fun _ => 0, bios_bus := 0,
    ewram := fun _ => 0, iwram := fun _ => 0, palram := fun _ => 0,
    vram := fun _ => 0, oam := fun _ => 0,
    rom := fun _ => 0, rom_size := 0,
    backup_type := BackupType.sram_chip, eeprom_mask := 0, eeprom_range := 1,
    eeprom_byte := 0, eeprom_writes := [], sram := fun _ => 0,
    io_read_hook := fun _ => 0, io_writes := [],
    gpio_readable := false, gpio_read_hook := fun _ => 0, gpio_writes := [],
    bg_mode := 0,
    was_last_access_from_dma := false, dma_bus := 0,
    gamepak_bus_in_use := false,
    pbuffer := { head := 0, tail := 0, countdown := 0, insn_len := 0,
                 reload := 0, capacity := 0, size := 0, enabled := true },
    times := access_times_init, cycles := 0 }

/-- Modular prefetch-buffer invariant: the head/tail distance equals
size * insn_len in 32-bit arithmetic. -/
def PbInv (pb : PrefetchBuffer) : Prop :=
  pb.head < 4294967296 ∧ pb.tail < 4294967296 ∧ pb.size < 4294967296 ∧
  (pb.insn_len = 2 ∨ pb.insn_len = 4) ∧
  (pb.head + 4294967296 - pb.tail) % 4294967296 =
    pb.size * pb.insn_len % 4294967296

/-- Exact prefetch-buffer invariant, maintained while no hit happens with
size = 0 and every access address is a cart address. -/
def PbInv2 (pb : PrefetchBuffer) : Prop :=
  pb.tail ≤ 0xFE000003 ∧
  pb.head = pb.tail + pb.size * pb.insn_len ∧
  pb.size ≤ pb.capacity ∧
  ((pb.insn_len = 2 ∧ pb.capacity = 8) ∨ (pb.insn_len = 4 ∧ pb.capacity = 4))

/-- The zero state with a 0x100-byte ROM. -/
def g_rom256 : Gba := { g0 with rom_size := 0x100 }

/-- The zero state with a 64K EEPROM whose window covers 0x0D000000. -/
def g_eeprom : Gba :=
  { g0 with backup_type := BackupType.eeprom_64k, eeprom_mask := 0x0F000000,
            eeprom_range := 0x0D000000 }

/-- The zero state in Thumb mode whose tables give sequential 16-bit cart
accesses 2 cycles (WS0 sequential bit set). -/
def g_thumb_seq2 : Gba :=
  { g0 with thumb := true,
            times := mem_update_waitstates wc_ws0seq access_times_init }

/-- The zero state with a nonzero BIOS latch and prefetched word, used to
tell the latch and the open-bus value apart. -/
def g_bios_latch : Gba :=
  { g0 with bios_bus := 0x22222222, prefetch1 := 0x11111111 }

theorem upd2_other (f : Bool → Nat → Nat) (s : Bool) (i v : Nat) (s2 : Bool)
    (i2 : Nat) (h : i2 ≠ i) : upd2 f s i v s2 i2 = f s2 i2 := by
  unfold upd2
  rw [if_neg]
  rintro ⟨h1, -⟩
  exact h h1

theorem mem_update_waitstates_noncart (wc : Waitcnt) (t : AccessTimes)
    (seq : Bool) (i : Nat) (h : i < 8 ∨ i = 15) :
    (mem_update_waitstates wc t).t16 seq i = t.t16 seq i ∧
    (mem_update_waitstates wc t).t32 seq i = t.t32 seq i := by
  unfold mem_update_waitstates
  simp only [CART_0_REGION_1, CART_0_REGION_2, CART_1_REGION_1,
    CART_1_REGION_2, CART_2_REGION_1, CART_2_REGION_2, SRAM_REGION]
  constructor
  · rw [upd2_other _ _ _ _ _ _ (by omega), upd2_other _ _ _ _ _ _ (by omega),
      upd2_other _ _ _ _ _ _ (by omega), upd2_other _ _ _ _ _ _ (by omega),
      upd2_other _ _ _ _ _ _ (by omega), upd2_other _ _ _ _ _ _ (by omega),
      upd2_other _ _ _ _ _ _ (by omega), upd2_other _ _ _ _ _ _ (by omega),
      upd2_other _ _ _ _ _ _ (by omega), upd2_other _ _ _ _ _ _ (by omega),
      upd2_other _ _ _ _ _ _ (by omega), upd2_other _ _ _ _ _ _ (by omega),
      upd2_other _ _ _ _ _ _ (by omega), upd2_other _ _ _ _ _ _ (by omega)]
  · rw [if_neg (by omega)]

theorem mem_update_waitstates_sram16 (wc : Waitcnt) (t : AccessTimes)
    (seq : Bool) :
    (mem_update_waitstates wc t).t16 seq 14 =
      1 + gamepak_nonseq_waitstates wc.sram := by
  unfold mem_update_waitstates
  simp only [CART_0_REGION_1, CART_0_REGION_2, CART_1_REGION_1,
    CART_1_REGION_2, CART_2_REGION_1, CART_2_REGION_2, SRAM_REGION]
  cases seq <;> simp [upd2]

theorem waitcnt_history_entry15 (wcs : List Waitcnt) (seq : Bool) :
    (waitcnt_history wcs).t16 seq 15 = 1 ∧
    (waitcnt_history wcs).t32 seq 15 = 1 := by
  unfold waitcnt_history
  suffices h : ∀ (t : AccessTimes), (∀ s, t.t16 s 15 = 1 ∧ t.t32 s 15 = 1) →
      ∀ s, (wcs.foldl (fun t wc => mem_update_waitstates wc t) t).t16 s 15 = 1 ∧
        (wcs.foldl (fun t wc => mem_update_waitstates wc t) t).t32 s 15 = 1 by
    exact h access_times_init (fun s => by cases s <;> exact ⟨rfl, rfl⟩) seq
  induction wcs with
  | nil => intro t ht s; exact ht s
  | cons wc rest ih =>
    intro t ht s
    simp only [List.foldl_cons]
    refine ih (mem_update_waitstates wc t) (fun s2 => ?_) s
    have h1 := mem_update_waitstates_noncart wc t s2 15 (Or.inr rfl)
    exact ⟨h1.1.trans (ht s2).1, h1.2.trans (ht s2).2⟩

theorem mem_access_noncart (gba : Gba) (addr size : Nat) (acc : Bool)
    (hnc : ¬(8 ≤ ((align_on addr size) >>> 24) % 16 ∧
      ((align_on addr size) >>> 24) % 16 ≤ 13)) :
    (mem_access gba addr size acc).cycles = gba.cycles +
      (if size ≤ 2 then
        gba.times.t16
          (if 8 ≤ ((align_on addr size) >>> 24) % 16 ∧
              ((align_on addr size) >>> 24) % 16 ≤ 13 ∧
              (align_on addr size) % 0x20000 = 0 then false else acc)
          (((align_on addr size) >>> 24) % 16)
      else
        gba.times.t32
          (if 8 ≤ ((align_on addr size) >>> 24) % 16 ∧
              ((align_on addr size) >>> 24) % 16 ≤ 13 ∧
              (align_on addr size) % 0x20000 = 0 then false else acc)
          (((align_on addr size) >>> 24) % 16)) := by
  unfold mem_access
  simp only [CART_REGION_START, CART_REGION_END, decide_eq_false hnc,
    Bool.false_and, Bool.and_false]
  rfl

theorem pb_hit_ready_cycles (gba : Gba) (addr i : Nat)
    (h1 : gba.pbuffer.tail = addr) (h2 : gba.pbuffer.size ≠ 0) :
    (mem_prefetch_buffer_access gba addr i).cycles = gba.cycles + 1 := by
  simp only [mem_prefetch_buffer_access]
  rw [if_pos h1, if_neg h2]
  rfl

theorem pb_access_inv (gba : Gba) (a i : Nat) (h : PbInv gba.pbuffer) :
    PbInv (mem_prefetch_buffer_access gba a i).pbuffer := by
  obtain ⟨hh, htl, hsz, hlen, hid⟩ := h
  simp only [mem_prefetch_buffer_access]
  split_ifs with htail hsize hthumb
  · simp only [PbInv, core_idle_for, u32, dec32]
    rcases hlen with h2 | h2 <;> rw [h2] at hid ⊢ <;> omega
  · simp only [PbInv, core_idle, u32, dec32]
    rcases hlen with h2 | h2 <;> rw [h2] at hid ⊢ <;> omega
  · simp only [PbInv, core_idle_for, u32]
    refine ⟨by omega, by omega, by omega, by simp, by omega⟩
  · simp only [PbInv, core_idle_for, u32]
    refine ⟨by omega, by omega, by omega, by simp, by omega⟩

theorem pb_fill_loop_inv (fuel : Nat) (pb : PrefetchBuffer) (c : Nat)
    (h : PbInv pb) : PbInv (pb_fill_loop fuel pb c).1 := by
  induction fuel generalizing pb c with
  | zero => exact h
  | succ n ih =>
    simp only [pb_fill_loop]
    split_ifs with hc
    · apply ih
      obtain ⟨hh, htl, hsz, hlen, hid⟩ := h
      simp only [PbInv, u32]
      refine ⟨by omega, by omega, by omega, hlen, ?_⟩
      rcases hlen with h2 | h2 <;> rw [h2] at hid ⊢ <;> omega
    · exact h

theorem pb_step_inv (gba : Gba) (c : Nat) (h : PbInv gba.pbuffer) :
    PbInv (mem_prefetch_buffer_step gba c).pbuffer := by
  have hl := pb_fill_loop_inv (gba.pbuffer.capacity - gba.pbuffer.size)
    gba.pbuffer c h
  simp only [mem_prefetch_buffer_step]
  split_ifs with hc
  · exact ⟨hl.1, hl.2.1, hl.2.2.1, hl.2.2.2.1, hl.2.2.2.2⟩
  · exact hl

theorem pb_run_inv (ops : List PbOp) (gba : Gba) (h : PbInv gba.pbuffer) :
    PbInv (pb_run gba ops).pbuffer := by
  induction ops generalizing gba with
  | nil => exact h
  | cons op rest ih =>
    cases op with
    | acc a i => exact ih _ (pb_access_inv _ _ _ h)
    | step c => exact ih _ (pb_step_inv _ _ h)

theorem cart_addr_le (a : Nat) (h : cart_addr_b a = true) : a ≤ 0xFDFFFFFF := by
  unfold cart_addr_b at h
  simp only [Bool.and_eq_true, decide_eq_true_eq] at h
  omega

theorem pb_access_inv2 (gba : Gba) (a i : Nat) (h : PbInv2 gba.pbuffer)
    (ha : cart_addr_b a = true)
    (hs : gba.pbuffer.tail ≠ a ∨ gba.pbuffer.size ≠ 0) :
    PbInv2 (mem_prefetch_buffer_access gba a i).pbuffer := by
  obtain ⟨htl, hht, hsc, hpair⟩ := h
  have hale := cart_addr_le a ha
  simp only [mem_prefetch_buffer_access]
  split_ifs with htail hsize
  · rcases hs with hs | hs
    · exact absurd htail hs
    · exact absurd hsize hs
  · simp only [PbInv2, core_idle, u32, dec32]
    rcases hpair with ⟨h2, h8⟩ | ⟨h2, h8⟩ <;> rw [h2] at hht ⊢ <;> omega
  · simp only [PbInv2, core_idle_for, u32]
    refine ⟨by omega, by omega, by omega, by simp⟩
  · simp only [PbInv2, core_idle_for, u32]
    refine ⟨by omega, by omega, by omega, by simp⟩

theorem pb_fill_loop_inv2 (fuel : Nat) (pb : PrefetchBuffer) (c : Nat)
    (h : PbInv2 pb) : PbInv2 (pb_fill_loop fuel pb c).1 := by
  induction fuel generalizing pb c with
  | zero => exact h
  | succ n ih =>
    simp only [pb_fill_loop]
    split_ifs with hc
    · apply ih
      obtain ⟨htl, hht, hsc, hpair⟩ := h
      simp only [PbInv2, u32]
      rcases hpair with ⟨h2, h8⟩ | ⟨h2, h8⟩ <;> rw [h2] at hht ⊢ <;> omega
    · exact h

theorem pb_step_inv2 (gba : Gba) (c : Nat) (h : PbInv2 gba.pbuffer) :
    PbInv2 (mem_prefetch_buffer_step gba c).pbuffer := by
  have hl := pb_fill_loop_inv2 (gba.pbuffer.capacity - gba.pbuffer.size)
    gba.pbuffer c h
  simp only [mem_prefetch_buffer_step]
  split_ifs with hc
  · exact ⟨hl.1, hl.2.1, hl.2.2.1, hl.2.2.2⟩
  · exact hl

theorem pb_run_inv2 (ops : List PbOp) (gba : Gba) (h : PbInv2 gba.pbuffer)
    (hc : ops_cart ops = true) (hn : no_inflight_hit gba ops = true) :
    PbInv2 (pb_run gba ops).pbuffer := by
  induction ops generalizing gba with
  | nil => exact h
  | cons op rest ih =>
    cases op with
    | acc a i =>
      simp only [ops_cart, Bool.and_eq_true] at hc
      simp only [no_inflight_hit, Bool.and_eq_true, Bool.or_eq_true,
        decide_eq_true_eq] at hn
      exact ih _ (pb_access_inv2 _ _ _ h hc.1 hn.1) hc.2 hn.2
    | step c =>
      simp only [ops_cart] at hc
      simp only [no_inflight_hit] at hn
      exact ih _ (pb_step_inv2 _ _ h) hc hn

theorem pb_rearm_inv (gba : Gba) (a i : Nat) (hm : gba.pbuffer.tail ≠ a) :
    PbInv (mem_prefetch_buffer_access gba a i).pbuffer ∧
    (cart_addr_b a = true →
      PbInv2 (mem_prefetch_buffer_access gba a i).pbuffer) := by
  simp only [mem_prefetch_buffer_access]
  rw [if_neg hm]
  split_ifs with hthumb
  · constructor
    · simp only [PbInv, core_idle_for, u32]
      refine ⟨by omega, by omega, by omega, by simp, by omega⟩
    · intro ha
      have hale := cart_addr_le a ha
      simp only [PbInv2, core_idle_for, u32]
      refine ⟨by omega, by omega, by omega, by simp⟩
  · constructor
    · simp only [PbInv, core_idle_for, u32]
      refine ⟨by omega, by omega, by omega, by simp, by omega⟩
    · intro ha
      have hale := cart_addr_le a ha
      simp only [PbInv2, core_idle_for, u32]
      refine ⟨by omega, by omega, by omega, by simp⟩

theorem region_skip (r : Nat) (h : 8 ≤ r) :
    ¬(r = 0) ∧ ¬(r = 2) ∧ ¬(r = 3) ∧ ¬(r = 4) ∧ ¬(r = 5) ∧ ¬(r = 6) ∧
      ¬(r = 7) := by
  omega

theorem region_is_vram (r : Nat) (h : r = 6) :
    ¬(r = 0) ∧ ¬(r = 2) ∧ ¬(r = 3) ∧ ¬(r = 4) ∧ ¬(r = 5) := by
  omega

theorem mem_write8_vram (gba : Gba) (addr val : Nat) (hr : addr >>> 24 = 6) :
    mem_write8_internal gba addr val =
      (if (gba.bg_mode ≤ 2 ∧ addr &&& 0x1FFFF < 0x10000) ∨
          (3 ≤ gba.bg_mode ∧ addr &&& 0x1FFFF < 0x14000) then
        { gba with
          vram := updf (updf gba.vram (vram_index (addr / 2 * 2)) (val % 256))
            (vram_index (addr / 2 * 2 + 1)) (val % 256) }
      else gba) := by
  obtain ⟨n0, n2, n3, n4, n5⟩ := region_is_vram (addr >>> 24) hr
  unfold mem_write8_internal
  simp only [BIOS_REGION, EWRAM_REGION, IWRAM_REGION, IO_REGION,
    PALRAM_REGION, VRAM_REGION]
  rw [if_neg n0, if_neg n2, if_neg n3, if_neg n4, if_neg n5, if_pos hr]

theorem mem_read8_vram (gba : Gba) (addr : Nat) (hr : addr >>> 24 = 6) :
    mem_read8_internal gba addr =
      some (byteAt gba.vram (vram_index addr), gba) := by
  obtain ⟨n0, n2, n3, n4, n5⟩ := region_is_vram (addr >>> 24) hr
  unfold mem_read8_internal
  simp only [BIOS_REGION, EWRAM_REGION, IWRAM_REGION, IO_REGION,
    PALRAM_REGION, VRAM_REGION]
  rw [if_neg n0, if_neg n2, if_neg n3, if_neg n4, if_neg n5, if_pos hr]

/-- Claim C1 (code bug): a 16-bit or 32-bit SRAM write is documented in the
source to rotate the value right by 8 * (addr mod width) and store the low
byte, but the write path aligns the address before the rotation amount is
computed, so the rotation is always zero: writing 0xAB12 at 0x0E000001
stores 0x12 where the claimed rotation yields 0xAB, and the following
16-bit read returns 0x1212 instead of 0xABAB.  Likewise for 32-bit. -/
theorem C1_sram_write_rotation_dead :
    (mem_write16_internal g0 0x0E000001 0xAB12).sram 0x0E000000 = 0x12
    ∧ (0xAB12 >>> (8 * (0x0E000001 % 2))) % 256 = 0xAB
    ∧ (mem_read16_internal (mem_write16_internal g0 0x0E000001 0xAB12)
        0x0E000001).map Prod.fst = some 0x1212
    ∧ (mem_write32_internal g0 0x0E000002 0xDEADBEEF).sram 0x0E000000 = 0xEF
    ∧ (0xDEADBEEF >>> (8 * (0x0E000002 % 4))) % 256 = 0xAD := by decide

/-- Claim C2 (amended): starting from a freshly re-armed prefetch buffer
(the miss branch), after every finite sequence of access and step calls the
32-bit difference head - tail equals size * insn_len modulo 2^32; moreover,
when no access in the sequence hits while size = 0 and every access address
is a cart address, head = tail + size * insn_len holds exactly, tail is at
most head, and size is at most capacity.  The unrestricted original claim
fails because a hit on an in-flight slot decrements the unsigned size past
zero (see the counterexample). -/
theorem C2_prefetch_invariant (gba0 : Gba) (a0 i0 : Nat) (ops : List PbOp)
    (hmiss : gba0.pbuffer.tail ≠ a0) (ha0 : cart_addr_b a0 = true) :
    ((pb_run (mem_prefetch_buffer_access gba0 a0 i0) ops).pbuffer.head
          + 4294967296
          - (pb_run (mem_prefetch_buffer_access gba0 a0 i0) ops).pbuffer.tail)
        % 4294967296
      = (pb_run (mem_prefetch_buffer_access gba0 a0 i0) ops).pbuffer.size
          * (pb_run (mem_prefetch_buffer_access gba0 a0 i0)
              ops).pbuffer.insn_len
        % 4294967296
    ∧ (ops_cart ops = true →
        no_inflight_hit (mem_prefetch_buffer_access gba0 a0 i0) ops = true →
        (pb_run (mem_prefetch_buffer_access gba0 a0 i0) ops).pbuffer.head
          = (pb_run (mem_prefetch_buffer_access gba0 a0 i0) ops).pbuffer.tail
            + (pb_run (mem_prefetch_buffer_access gba0 a0 i0)
                ops).pbuffer.size
              * (pb_run (mem_prefetch_buffer_access gba0 a0 i0)
                  ops).pbuffer.insn_len
        ∧ (pb_run (mem_prefetch_buffer_access gba0 a0 i0) ops).pbuffer.tail
            ≤ (pb_run (mem_prefetch_buffer_access gba0 a0 i0) ops).pbuffer.head
        ∧ (pb_run (mem_prefetch_buffer_access gba0 a0 i0) ops).pbuffer.size
            ≤ (pb_run (mem_prefetch_buffer_access gba0 a0 i0)
                ops).pbuffer.capacity) := by
  have hre := pb_rearm_inv gba0 a0 i0 hmiss
  constructor
  · exact (pb_run_inv ops _ hre.1).2.2.2.2
  · intro hc hn
    have h2 := pb_run_inv2 ops _ (hre.2 ha0) hc hn
    obtain ⟨htl, hht, hsc, hpair⟩ := h2
    exact ⟨hht, by omega, hsc⟩

/-- Witness for claim C2 at a concrete re-arm and one step call. -/
theorem C2_prefetch_invariant_witness :
    ((pb_run (mem_prefetch_buffer_access g0 0x08000000 1)
          [PbOp.step 4]).pbuffer.head
        + 4294967296
        - (pb_run (mem_prefetch_buffer_access g0 0x08000000 1)
            [PbOp.step 4]).pbuffer.tail)
      % 4294967296
      = (pb_run (mem_prefetch_buffer_access g0 0x08000000 1)
          [PbOp.step 4]).pbuffer.size
        * (pb_run (mem_prefetch_buffer_access g0 0x08000000 1)
            [PbOp.step 4]).pbuffer.insn_len
        % 4294967296 :=
  (C2_prefetch_invariant g0 0x08000000 1 [PbOp.step 4] (by decide)
    (by decide)).1

/-- Counterexample to claim C2 as stated: one hit right after the re-arm
(while the slot is still in flight) leaves tail above head and size far
above capacity, because the unsigned size wraps to 2^32 - 1. -/
theorem C2_counterexample :
    ¬((pb_run (mem_prefetch_buffer_access g_thumb_seq2 0x08000000 1)
          [PbOp.acc 0x08000002 1]).pbuffer.tail
        ≤ (pb_run (mem_prefetch_buffer_access g_thumb_seq2 0x08000000 1)
            [PbOp.acc 0x08000002 1]).pbuffer.head
      ∧ (pb_run (mem_prefetch_buffer_access g_thumb_seq2 0x08000000 1)
          [PbOp.acc 0x08000002 1]).pbuffer.size
        ≤ (pb_run (mem_prefetch_buffer_access g_thumb_seq2 0x08000000 1)
            [PbOp.acc 0x08000002 1]).pbuffer.capacity) := by decide

/-- Claim C3 (amended): for BIOS-region addresses (top byte 0), reads whose
aligned address is at most 0x3FFF refresh the BIOS latch when the CPU PC is
also inside BIOS and keep it otherwise, returning the latched word shifted
right by 8 * (aligned addr mod 4) and narrowed to the width; reads in the
BIOS region above 0x3FFF resolve through the open-bus value rather than the
latch (the point where the original claim fails); writes of every width are
ignored, leaving the state unchanged. -/
theorem C3_bios_amended (gba : Gba) (addr v : Nat) (hr : addr >>> 24 = 0) :
    (addr ≤ 0x3FFF ∧ gba.pc ≤ 0x3FFF →
      mem_read8_internal gba addr =
        some ((read32le gba.bios (addr / 4 * 4) >>> (8 * (addr % 4))) % 256,
          { gba with bios_bus := read32le gba.bios (addr / 4 * 4) })
      ∧ mem_read16_internal gba addr =
        some ((read32le gba.bios (addr / 4 * 4) >>>
            (8 * (addr / 2 * 2 % 4))) % 65536,
          { gba with bios_bus := read32le gba.bios (addr / 4 * 4) })
      ∧ mem_read32_internal gba addr =
        some (read32le gba.bios (addr / 4 * 4),
          { gba with bios_bus := read32le gba.bios (addr / 4 * 4) }))
    ∧ (addr ≤ 0x3FFF ∧ ¬gba.pc ≤ 0x3FFF →
      mem_read8_internal gba addr =
        some ((gba.bios_bus >>> (8 * (addr % 4))) % 256, gba)
      ∧ mem_read16_internal gba addr =
        some ((gba.bios_bus >>> (8 * (addr / 2 * 2 % 4))) % 65536, gba)
      ∧ mem_read32_internal gba addr = some (gba.bios_bus, gba))
    ∧ (¬addr ≤ 0x3FFF →
      mem_read8_internal gba addr =
        (mem_openbus_read gba addr).map (fun w => (w % 256, gba))
      ∧ mem_read16_internal gba addr =
        (mem_openbus_read gba (addr / 2 * 2)).map (fun w => (w % 65536, gba))
      ∧ mem_read32_internal gba addr =
        (mem_openbus_read gba (addr / 4 * 4)).map (fun w => (w, gba)))
    ∧ (mem_write8_internal gba addr v = gba
      ∧ mem_write16_internal gba addr v = gba
      ∧ mem_write32_internal gba addr v = gba) := by
  have hr2 : (addr / 2 * 2) >>> 24 = 0 := by omega
  have hr4 : (addr / 4 * 4) >>> 24 = 0 := by omega
  have ha24 : addr / 2 * 2 / 4 * 4 = addr / 4 * 4 := by omega
  have ha44 : addr / 4 * 4 / 4 * 4 = addr / 4 * 4 := by omega
  have hm4 : addr / 4 * 4 % 4 = 0 := by omega
  refine ⟨fun ⟨hin, hpc⟩ => ⟨?_, ?_, ?_⟩, fun ⟨hin, hpc⟩ => ⟨?_, ?_, ?_⟩,
    fun hout => ⟨?_, ?_, ?_⟩, ?_, ?_, ?_⟩
  · unfold mem_read8_internal
    simp only [BIOS_REGION, BIOS_END]
    rw [if_pos hr, if_pos (by omega), if_pos hpc]
  · unfold mem_read16_internal mem_read16_dispatch
    simp only [BIOS_REGION, BIOS_END]
    rw [if_pos hr2, if_pos (by omega), if_pos hpc, ha24]
  · unfold mem_read32_internal mem_read32_dispatch
    simp only [BIOS_REGION, BIOS_END]
    rw [if_pos hr4, if_pos (by omega), if_pos hpc, ha44, hm4]
    simp only [Nat.mul_zero, Nat.shiftRight_zero]
  · unfold mem_read8_internal
    simp only [BIOS_REGION, BIOS_END]
    rw [if_pos hr, if_pos (by omega), if_neg hpc]
  · unfold mem_read16_internal mem_read16_dispatch
    simp only [BIOS_REGION, BIOS_END]
    rw [if_pos hr2, if_pos (by omega), if_neg hpc]
  · unfold mem_read32_internal mem_read32_dispatch
    simp only [BIOS_REGION, BIOS_END]
    rw [if_pos hr4, if_pos (by omega), if_neg hpc, hm4]
    simp only [Nat.mul_zero, Nat.shiftRight_zero]
  · unfold mem_read8_internal
    simp only [BIOS_REGION, BIOS_END]
    rw [if_pos hr, if_neg (by omega)]
  · unfold mem_read16_internal mem_read16_dispatch
    simp only [BIOS_REGION, BIOS_END]
    rw [if_pos hr2, if_neg (by omega)]
  · unfold mem_read32_internal mem_read32_dispatch
    simp only [BIOS_REGION, BIOS_END]
    rw [if_pos hr4, if_neg (by omega)]
  · unfold mem_write8_internal
    simp only [BIOS_REGION]
    rw [if_pos hr]
  · unfold mem_write16_internal mem_write16_dispatch
    simp only [BIOS_REGION]
    rw [if_pos hr2]
  · unfold mem_write32_internal mem_write32_dispatch
    simp only [BIOS_REGION]
    rw [if_pos hr4]

/-- Witness for claim C3 at a concrete in-BIOS read with PC inside BIOS. -/
theorem C3_bios_amended_witness :
    mem_read8_internal g0 0x100 =
      some ((read32le g0.bios (0x100 / 4 * 4) >>> (8 * (0x100 % 4))) % 256,
        { g0 with bios_bus := read32le g0.bios (0x100 / 4 * 4) }) :=
  ((C3_bios_amended g0 0x100 0 (by decide)).1 (by decide)).1

/-- Counterexample to claim C3 as stated: a byte read at 0x00004000 (BIOS
region, past the BIOS end) returns the open-bus value 0x11, not the latched
word narrowed to a byte, 0x22. -/
theorem C3_counterexample :
    (mem_read8_internal
      { g0 with bios_bus := 0x22222222, prefetch1 := 0x11111111 }
      0x00004000).map Prod.fst ≠
    some ((0x22222222 >>> (8 * (0x00004000 % 4))) % 256) := by decide

/-- Claim C4 (amended): in Thumb mode with the sequential 16-bit cart timing
at 2 cycles, a prefetch miss at 0x08000000 re-arms the buffer with insn_len
2, capacity 8 and reload 2; step(10) then completes 5 slots and leaves
countdown = 2, the reload value (not 0 as originally claimed); the next
access hit at 0x08000002 advances the idle-cycle sink by exactly one
cycle. -/
theorem C4_prefetch_hit_latency (gba : Gba) (i0 i2 : Nat)
    (hth : gba.thumb = true) (ht : gba.times.t16 true 8 = 2)
    (hm : gba.pbuffer.tail ≠ 0x08000000) :
    ((mem_prefetch_buffer_access gba 0x08000000 i0).pbuffer.insn_len = 2
      ∧ (mem_prefetch_buffer_access gba 0x08000000 i0).pbuffer.capacity = 8
      ∧ (mem_prefetch_buffer_access gba 0x08000000 i0).pbuffer.reload = 2)
    ∧ ((mem_prefetch_buffer_step
          (mem_prefetch_buffer_access gba 0x08000000 i0) 10).pbuffer.size = 5
      ∧ (mem_prefetch_buffer_step
          (mem_prefetch_buffer_access gba 0x08000000 i0) 10).pbuffer.countdown
        = 2)
    ∧ (mem_prefetch_buffer_access
        (mem_prefetch_buffer_step
          (mem_prefetch_buffer_access gba 0x08000000 i0) 10)
        0x08000002 i2).cycles =
      (mem_prefetch_buffer_step
        (mem_prefetch_buffer_access gba 0x08000000 i0) 10).cycles + 1 := by
  have h1 : (mem_prefetch_buffer_access gba 0x08000000 i0).pbuffer =
      { head := 0x08000002, tail := 0x08000002, countdown := 2, insn_len := 2,
        reload := 2, capacity := 8, size := 0,
        enabled := gba.pbuffer.enabled } := by
    simp only [mem_prefetch_buffer_access]
    rw [if_neg hm, if_pos hth]
    have h8 : ((134217728 : Nat) >>> 24) % 16 = 8 := by decide
    rw [h8, ht]
    norm_num [u32]
  have h2 : (mem_prefetch_buffer_step
      (mem_prefetch_buffer_access gba 0x08000000 i0) 10).pbuffer =
      { head := 0x0800000C, tail := 0x08000002, countdown := 2, insn_len := 2,
        reload := 2, capacity := 8, size := 5,
        enabled := gba.pbuffer.enabled } := by
    simp only [mem_prefetch_buffer_step, h1]
    norm_num [pb_fill_loop, u32]
  refine ⟨⟨?_, ?_, ?_⟩, ⟨?_, ?_⟩, ?_⟩
  · rw [h1]
  · rw [h1]
  · rw [h1]
  · rw [h2]
  · rw [h2]
  · exact pb_hit_ready_cycles _ _ _ (by rw [h2]) (by rw [h2]; exact Nat.succ_ne_zero 4)

/-- Witness for claim C4 on the concrete Thumb state with reload 2. -/
theorem C4_prefetch_hit_latency_witness :
    (mem_prefetch_buffer_step
        (mem_prefetch_buffer_access g_thumb_seq2 0x08000000 1) 10).pbuffer.size
      = 5
    ∧ (mem_prefetch_buffer_step
        (mem_prefetch_buffer_access g_thumb_seq2 0x08000000 1)
          10).pbuffer.countdown = 2 :=
  (C4_prefetch_hit_latency g_thumb_seq2 1 1 (by decide) (by decide)
    (by decide)).2.1

/-- Counterexample to claim C4 as stated: after the miss at 0x08000000 and
step(10), the countdown is not 0 (it is the reload value 2). -/
theorem C4_counterexample :
    (mem_prefetch_buffer_step
        (mem_prefetch_buffer_access g_thumb_seq2 0x08000000 1)
          10).pbuffer.countdown ≠ 0 := by decide

/-- Claim C5: a read in a cart region (top byte 8..0xD) whose low 24 bits
are at or past the ROM size, missing the EEPROM window and the readable
GPIO window, returns the address-derived out-of-bounds pattern: width 16
gives (addr >> 1) masked to 16 bits, width 32 concatenates that with the
same pattern at addr + 2, and width 8 gives (addr >> (1 + 8*(addr mod 2)))
masked to a byte. -/
theorem C5_rom_oob (gba : Gba) (addr : Nat)
    (hreg : 8 ≤ addr >>> 24 ∧ addr >>> 24 ≤ 13)
    (hne : ¬((gba.backup_type = BackupType.eeprom_4k ∨
        gba.backup_type = BackupType.eeprom_64k) ∧
        addr &&& gba.eeprom_mask = gba.eeprom_range))
    (hng : ¬(GPIO_REG_START ≤ addr ∧ addr ≤ GPIO_REG_END ∧
        gba.gpio_readable = true))
    (hoob : addr % 0x1000000 ≥ gba.rom_size) :
    mem_read8_internal gba addr = some ((addr >>> (1 + 8 * (addr % 2))) % 256, gba)
    ∧ (addr % 2 = 0 → mem_read16_internal gba addr = some ((addr >>> 1) % 65536, gba))
    ∧ (addr % 4 = 0 → mem_read32_internal gba addr =
        some ((addr >>> 1) % 65536 ||| ((((addr + 2) >>> 1) % 65536) <<< 16), gba)) := by
  obtain ⟨n0, n2, n3, n4, n5, n6, n7⟩ := region_skip (addr >>> 24) hreg.1
  refine ⟨?_, fun h2 => ?_, fun h4 => ?_⟩
  · unfold mem_read8_internal
    simp only [BIOS_REGION, EWRAM_REGION, IWRAM_REGION, IO_REGION,
      PALRAM_REGION, VRAM_REGION, OAM_REGION, CART_REGION_START,
      CART_REGION_END]
    rw [if_neg n0, if_neg n2, if_neg n3, if_neg n4, if_neg n5, if_neg n6,
      if_neg n7, if_pos (by omega), if_neg hne, if_neg hng, if_pos hoob]
  · have ha : addr / 2 * 2 = addr := by omega
    unfold mem_read16_internal
    rw [ha]
    unfold mem_read16_dispatch
    simp only [BIOS_REGION, EWRAM_REGION, IWRAM_REGION, IO_REGION,
      PALRAM_REGION, VRAM_REGION, OAM_REGION, CART_REGION_START,
      CART_REGION_END]
    rw [if_neg n0, if_neg n2, if_neg n3, if_neg n4, if_neg n5, if_neg n6,
      if_neg n7, if_pos (by omega), if_neg hne, if_neg hng, if_pos hoob]
  · have ha : addr / 4 * 4 = addr := by omega
    unfold mem_read32_internal
    rw [ha]
    unfold mem_read32_dispatch
    simp only [BIOS_REGION, EWRAM_REGION, IWRAM_REGION, IO_REGION,
      PALRAM_REGION, VRAM_REGION, OAM_REGION, CART_REGION_START,
      CART_REGION_END]
    rw [if_neg n0, if_neg n2, if_neg n3, if_neg n4, if_neg n5, if_neg n6,
      if_neg n7, if_pos (by omega), if_neg hne, if_neg hng, if_pos hoob]

/-- Witness for claim C5: with ROM size 0x100, the 16-bit read at 0x08000200
returns 0x0100 and the 32-bit read returns 0x01010100. -/
theorem C5_rom_oob_witness :
    mem_read16_internal g_rom256 0x08000200 = some (0x0100, g_rom256)
    ∧ mem_read32_internal g_rom256 0x08000200 = some (0x01010100, g_rom256) :=
  ⟨(C5_rom_oob g_rom256 0x08000200 (by decide) (by decide) (by decide)
      (by decide)).2.1 (by decide),
    (C5_rom_oob g_rom256 0x08000200 (by decide) (by decide) (by decide)
      (by decide)).2.2 (by decide)⟩

/-- Claim C6: whenever mem_openbus_read avoids the fatal reserved-PC branch,
its value at addr equals its value at the 4-aligned address shifted right
by 8 * (addr mod 4); the telemetry alone determines the 32-bit value and
the address only contributes the byte shift. -/
theorem C6_openbus_rotation (gba : Gba) (addr v : Nat)
    (h : mem_openbus_read gba (addr / 4 * 4) = some v) :
    mem_openbus_read gba addr = some (v >>> (8 * (addr % 4))) := by
  have hz : (addr / 4 * 4) % 4 = 0 := by omega
  unfold mem_openbus_read at h ⊢
  simp only [hz, Nat.mul_zero, Nat.shiftRight_zero] at h
  by_cases hdma : gba.was_last_access_from_dma
  · rw [if_pos hdma] at h ⊢
    cases h
    rfl
  · rw [if_neg hdma] at h ⊢
    by_cases hth : gba.thumb
    · rw [if_pos hth] at h ⊢
      cases hv : openbus_thumb_val gba with
      | none => rw [hv] at h; cases h
      | some val =>
        rw [hv] at h
        simp only [Option.map_some', Option.some.injEq] at h
        rw [h]
        rfl
    · rw [if_neg hth] at h ⊢
      cases h
      rfl

/-- Witness for claim C6 on a concrete Thumb-off state. -/
theorem C6_openbus_rotation_witness :
    mem_openbus_read g_bios_latch 0x10000002 = some 0x1111 :=
  C6_openbus_rotation g_bios_latch 0x10000002 0x11111111 (by decide)

/-- Claim C7: an 8-bit VRAM write is applied iff the masked offset
addr mod 2^17 is below the BG boundary of the display mode (below 0x10000
for modes 0-2, below 0x14000 for mode 3 and above); when applied, the byte
is written to both bytes of the enclosing halfword through the non-uniform
VRAM mirror mask; when not applied, the state is unchanged.  With mode 0,
writing 0xAB at 0x06010000 is dropped (the byte still reads 0) while
writing it at 0x06000000 makes 0x06000000 and 0x06000001 both read
0xAB. -/
theorem C7_vram_write8 (gba : Gba) (addr val : Nat) (hr : addr >>> 24 = 6) :
    (((gba.bg_mode ≤ 2 ∧ addr &&& 0x1FFFF < 0x10000) ∨
        (3 ≤ gba.bg_mode ∧ addr &&& 0x1FFFF < 0x14000)) →
      (mem_write8_internal gba addr val).vram (vram_index (addr / 2 * 2)) =
        val % 256
      ∧ (mem_write8_internal gba addr val).vram
          (vram_index (addr / 2 * 2 + 1)) = val % 256
      ∧ (∀ i, i ≠ vram_index (addr / 2 * 2) →
          i ≠ vram_index (addr / 2 * 2 + 1) →
          (mem_write8_internal gba addr val).vram i = gba.vram i))
    ∧ (¬((gba.bg_mode ≤ 2 ∧ addr &&& 0x1FFFF < 0x10000) ∨
        (3 ≤ gba.bg_mode ∧ addr &&& 0x1FFFF < 0x14000)) →
      mem_write8_internal gba addr val = gba)
    ∧ (gba.bg_mode = 0 → gba.vram = (fun _ => 0) →
      mem_write8_internal gba 0x06010000 0xAB = gba
      ∧ (mem_read8_internal (mem_write8_internal gba 0x06010000 0xAB)
          0x06010000).map Prod.fst = some 0x00
      ∧ (mem_read8_internal (mem_write8_internal gba 0x06000000 0xAB)
          0x06000000).map Prod.fst = some 0xAB
      ∧ (mem_read8_internal (mem_write8_internal gba 0x06000000 0xAB)
          0x06000001).map Prod.fst = some 0xAB) := by
  have heq := mem_write8_vram gba addr val hr
  refine ⟨fun hok => ?_, fun hbad => ?_, fun hbg hv => ?_⟩
  · rw [heq, if_pos hok]
    refine ⟨?_, ?_, ?_⟩
    · show updf _ _ _ _ = val % 256
      unfold updf
      split_ifs <;> simp_all
    · show updf _ _ _ _ = val % 256
      unfold updf
      split_ifs <;> simp_all
    · intro i h1 h2
      show updf _ _ _ i = gba.vram i
      unfold updf
      rw [if_neg h2, if_neg h1]
  · rw [heq, if_neg hbad]
  · refine ⟨?_, ?_, ?_, ?_⟩
    · rw [mem_write8_vram gba 0x06010000 0xAB (by decide),
        if_neg (by rw [hbg]; decide)]
    · rw [mem_write8_vram gba 0x06010000 0xAB (by decide),
        if_neg (by rw [hbg]; decide),
        mem_read8_vram gba 0x06010000 (by decide)]
      simp [byteAt, hv]
    · rw [mem_write8_vram gba 0x06000000 0xAB (by decide),
        if_pos (by rw [hbg]; decide)]
      rw [mem_read8_vram _ 0x06000000 (by decide)]
      simp [byteAt, updf, vram_index]
    · rw [mem_write8_vram gba 0x06000000 0xAB (by decide),
        if_pos (by rw [hbg]; decide)]
      rw [mem_read8_vram _ 0x06000001 (by decide)]
      simp [byteAt, updf, vram_index]

/-- Witness for claim C7 on the zeroed mode-0 state. -/
theorem C7_vram_write8_witness :
    (mem_read8_internal (mem_write8_internal g0 0x06010000 0xAB)
        0x06010000).map Prod.fst = some 0x00
    ∧ (mem_read8_internal (mem_write8_internal g0 0x06000000 0xAB)
        0x06000000).map Prod.fst = some 0xAB :=
  ⟨((C7_vram_write8 g0 0x06010000 0xAB (by decide)).2.2 rfl rfl).2.1,
    ((C7_vram_write8 g0 0x06000000 0xAB (by decide)).2.2 rfl rfl).2.2.1⟩

/-- Claim C8: a 16-bit or 32-bit read, both the internal untimed one and
the timed public one, gives the same result at an address and at that
address rounded down to the access width, for every starting state and
access kind; byte reads use the address verbatim, so the cleared low bits
never influence the result. -/
theorem C8_reads_aligned (gba : Gba) (addr : Nat) (access_type : Bool) :
    (mem_read16_internal gba addr = mem_read16_internal gba (addr / 2 * 2)
      ∧ mem_read32_internal gba addr = mem_read32_internal gba (addr / 4 * 4))
    ∧ (mem_read16 gba addr access_type =
        mem_read16 gba (addr / 2 * 2) access_type
      ∧ mem_read32 gba addr access_type =
        mem_read32 gba (addr / 4 * 4) access_type) := by
  have h2 : addr / 2 * 2 / 2 * 2 = addr / 2 * 2 := by omega
  have h4 : addr / 4 * 4 / 4 * 4 = addr / 4 * 4 := by omega
  refine ⟨⟨?_, ?_⟩, ?_, ?_⟩
  · simp only [mem_read16_internal, h2]
  · simp only [mem_read32_internal, h4]
  · simp only [mem_read16, mem_read16_internal, mem_access, align_on, h2]
  · simp only [mem_read32, mem_read32_internal, mem_access, align_on, h4]

/-- Claim C9: when the configured backup type is EEPROM (4K or 64K) and the
width-aligned cart address matches the EEPROM mask/range window, reads of
all three widths return exactly the single byte produced by
mem_eeprom_read8, zero-extended to the width with no replication and no
shifting. -/
theorem C9_eeprom_window (gba : Gba) (addr : Nat)
    (ht : gba.backup_type = BackupType.eeprom_4k ∨
      gba.backup_type = BackupType.eeprom_64k)
    (hreg : 8 ≤ addr >>> 24 ∧ addr >>> 24 ≤ 13) :
    (addr &&& gba.eeprom_mask = gba.eeprom_range →
      mem_read8_internal gba addr = some (mem_eeprom_read8 gba, gba))
    ∧ ((addr / 2 * 2) &&& gba.eeprom_mask = gba.eeprom_range →
      mem_read16_internal gba addr = some (mem_eeprom_read8 gba, gba))
    ∧ ((addr / 4 * 4) &&& gba.eeprom_mask = gba.eeprom_range →
      mem_read32_internal gba addr = some (mem_eeprom_read8 gba, gba))
    ∧ mem_eeprom_read8 gba < 256 := by
  refine ⟨fun hm => ?_, fun hm => ?_, fun hm => ?_, ?_⟩
  · obtain ⟨n0, n2, n3, n4, n5, n6, n7⟩ := region_skip (addr >>> 24) hreg.1
    unfold mem_read8_internal
    simp only [BIOS_REGION, EWRAM_REGION, IWRAM_REGION, IO_REGION,
      PALRAM_REGION, VRAM_REGION, OAM_REGION, CART_REGION_START,
      CART_REGION_END]
    rw [if_neg n0, if_neg n2, if_neg n3, if_neg n4, if_neg n5, if_neg n6,
      if_neg n7, if_pos (by omega), if_pos ⟨ht, hm⟩]
  · obtain ⟨n0, n2, n3, n4, n5, n6, n7⟩ :=
      region_skip ((addr / 2 * 2) >>> 24) (by omega)
    unfold mem_read16_internal mem_read16_dispatch
    simp only [BIOS_REGION, EWRAM_REGION, IWRAM_REGION, IO_REGION,
      PALRAM_REGION, VRAM_REGION, OAM_REGION, CART_REGION_START,
      CART_REGION_END]
    rw [if_neg n0, if_neg n2, if_neg n3, if_neg n4, if_neg n5, if_neg n6,
      if_neg n7, if_pos (by omega), if_pos ⟨ht, hm⟩]
  · obtain ⟨n0, n2, n3, n4, n5, n6, n7⟩ :=
      region_skip ((addr / 4 * 4) >>> 24) (by omega)
    unfold mem_read32_internal mem_read32_dispatch
    simp only [BIOS_REGION, EWRAM_REGION, IWRAM_REGION, IO_REGION,
      PALRAM_REGION, VRAM_REGION, OAM_REGION, CART_REGION_START,
      CART_REGION_END]
    rw [if_neg n0, if_neg n2, if_neg n3, if_neg n4, if_neg n5, if_neg n6,
      if_neg n7, if_pos (by omega), if_pos ⟨ht, hm⟩]
  · unfold mem_eeprom_read8
    omega

/-- Witness for claim C9 on a concrete EEPROM-64K window. -/
theorem C9_eeprom_window_witness :
    mem_read16_internal g_eeprom 0x0D000000 =
      some (mem_eeprom_read8 g_eeprom, g_eeprom) :=
  (C9_eeprom_window g_eeprom 0x0D000000 (by decide) (by decide)).2.1
    (by decide)

/-- Claim C10: mem_update_waitstates leaves the timing entries of region
indices 0-7 and 15 unchanged in all four rows; hence a timed access in the
SRAM mirror region (page 0xF) is charged the constant 1 cycle from the
initial tables after any history of recomputes, for the 8/16/32-bit widths
and both access kinds, while a timed 8- or 16-bit access in region 0xE
after a recompute is charged 1 + W[sram_ws] cycles. -/
theorem C10_waitstates_frame :
    (∀ (wc : Waitcnt) (t : AccessTimes) (seq : Bool) (i : Nat),
      i < 8 ∨ i = 15 →
      (mem_update_waitstates wc t).t16 seq i = t.t16 seq i ∧
      (mem_update_waitstates wc t).t32 seq i = t.t32 seq i)
    ∧ (∀ (wcs : List Waitcnt) (gba : Gba) (addr size : Nat) (acc : Bool),
        gba.times = waitcnt_history wcs →
        size = 1 ∨ size = 2 ∨ size = 4 →
        (addr >>> 24) % 16 = 15 →
        (mem_access gba addr size acc).cycles = gba.cycles + 1)
    ∧ (∀ (wc : Waitcnt) (t : AccessTimes) (gba : Gba) (addr size : Nat)
        (acc : Bool),
        gba.times = mem_update_waitstates wc t →
        size = 1 ∨ size = 2 →
        (addr >>> 24) % 16 = 14 →
        (mem_access gba addr size acc).cycles =
          gba.cycles + (1 + gamepak_nonseq_waitstates wc.sram)) := by
  refine ⟨mem_update_waitstates_noncart, ?_, ?_⟩
  · intro wcs gba addr size acc htimes hsize hp
    have hal : (align_on addr size) >>> 24 = addr >>> 24 := by
      unfold align_on
      rcases hsize with h | h | h <;> subst h <;> omega
    rw [mem_access_noncart gba addr size acc (by omega)]
    rw [hal, hp, htimes]
    split_ifs
    · exact congrArg _ (waitcnt_history_entry15 wcs _).1
    · exact congrArg _ (waitcnt_history_entry15 wcs _).1
    · exact congrArg _ (waitcnt_history_entry15 wcs _).2
    · exact congrArg _ (waitcnt_history_entry15 wcs _).2
  · intro wc t gba addr size acc htimes hsize hp
    have hal : (align_on addr size) >>> 24 = addr >>> 24 := by
      unfold align_on
      rcases hsize with h | h <;> subst h <;> omega
    rw [mem_access_noncart gba addr size acc (by omega)]
    rw [hal, hp, htimes]
    rw [if_pos (by omega)]
    split_ifs
    · exact congrArg _ (mem_update_waitstates_sram16 wc t _)
    · exact congrArg _ (mem_update_waitstates_sram16 wc t _)

/-- Witness for claim C10: page 0xF is charged one cycle on the initial
tables. -/
theorem C10_waitstates_frame_witness :
    (mem_access g0 0x0F000000 2 true).cycles = g0.cycles + 1 :=
  C10_waitstates_frame.2.1 [] g0 0x0F000000 2 true rfl (by decide) (by decide)
